import Mathlib

/-!
Shallow embedding of the auth + tiered rate-limit core of the API service
(src/auth.py, src/rate_limit.py, src/main.py).

Modelling conventions:
- Timestamps are `Nat` seconds since epoch; each `int(time.time())` call in the
  Python source becomes an explicit `Nat` parameter.  `create_api_key` reads the
  clock twice (once for `expires_at`, once for `created_at`), so it takes two
  time parameters `now1` and `now2`, in source order.
- The Redis key store is an association list from string keys to records;
  `set`/`get`/`delete` are modelled directly.  Backend-side TTL auto-eviction is
  an external behaviour of Redis and is not modelled: deletions happen only
  through explicit `delete` calls, exactly as in the application logic.
- Firestore's `users` collection is an association list from user id to a
  document whose `flags` attribute may be missing (`Option`).
- Python exceptions become `Except`: `UserFlag(flag)` raising `ValueError` on an
  unknown string is `parseFlags` returning `.error`; the `try/except` in
  `get_rate_limit` (src/main.py) is modelled by feeding it the `Except` outcome
  of the flag-resolution step.
- `RateLimiter(times=n, minutes=1)` is the record `⟨n, 1⟩`; the Python functions
  return `None` for unlimited access, modelled as `Option.none`.
-/

/-- The four permission flags (class `UserFlag` in src/auth.py, lines 46-50). -/
inductive UserFlag where
  | USER
  | ELEVATED_USER
  | ADMINISTRATOR
  | SYSTEM_OPERATOR
deriving DecidableEq, Repr

/-- `RateLimits.FLAG_LIMITS` (src/auth.py lines 53-58): per-flag quota,
`-1` meaning unlimited.  The dictionary contains every `UserFlag`, so the
Python lookup `FLAG_LIMITS.get(flag, 0)` is total and its default `0` is
unreachable. -/
def FLAG_LIMITS : UserFlag → Int
  | .USER => 100
  | .ELEVATED_USER => 2500
  | .ADMINISTRATOR => -1
  | .SYSTEM_OPERATOR => -1

/-- `RateLimits.UNAUTHENTICATED_LIMIT` (src/auth.py line 59). -/
def UNAUTHENTICATED_LIMIT : Int := 10

/-- The value `RateLimiter(times=…, minutes=…)` returned by the rate-limit
dependency functions. -/
structure RateLimiter where
  times : Int
  minutes : Int
deriving DecidableEq, Repr

/-- The `for flag in user_flags` loop shared by `get_rate_limit`
(src/main.py lines 44-51) and `dynamic_rate_limit` (src/rate_limit.py
lines 22-29), with accumulator `rate_limit`.  Returns `none` (Python `None`,
unlimited) as soon as a flag's limit is `-1`. -/
def rateLimitLoop : List UserFlag → Int → Option RateLimiter
  | [], rate_limit => some ⟨rate_limit, 1⟩
  | flag :: rest, rate_limit =>
    if FLAG_LIMITS flag = -1 then none
    else rateLimitLoop rest (max rate_limit (FLAG_LIMITS flag))

/-- The flag-set-to-policy resolution performed by `get_rate_limit`
(src/main.py lines 44-51) once `user_flags` is in hand: start from
`UNAUTHENTICATED_LIMIT` and run the loop. -/
def resolve_flags (user_flags : List UserFlag) : Option RateLimiter :=
  rateLimitLoop user_flags UNAUTHENTICATED_LIMIT

/-- `get_rate_limit` (src/main.py lines 37-55).  The whole body sits in a
`try/except`: if the flag-resolution step raised (`.error`), the `except`
branch returns `RateLimiter(times=UNAUTHENTICATED_LIMIT, minutes=1)`. -/
def get_rate_limit (flagsResult : Except String (List UserFlag)) : Option RateLimiter :=
  match flagsResult with
  | .error _ => some ⟨UNAUTHENTICATED_LIMIT, 1⟩
  | .ok user_flags => resolve_flags user_flags

/-- `dynamic_rate_limit` (src/rate_limit.py lines 13-29): returns the
unauthenticated policy outright on an empty flag list, otherwise runs the same
loop as `get_rate_limit`.  (It has no `try/except`.) -/
def dynamic_rate_limit (user_flags : List UserFlag) : Option RateLimiter :=
  if user_flags.isEmpty then some ⟨UNAUTHENTICATED_LIMIT, 1⟩
  else rateLimitLoop user_flags UNAUTHENTICATED_LIMIT

/-- The JSON record stored under `apikey:<key>` (src/auth.py lines 68-72). -/
structure KeyRecord where
  user_id : String
  created_at : Nat
  expires_at : Nat
deriving DecidableEq, Repr

/-- The Redis key store, as an association list (newest binding first). -/
abbrev Store := List (String × KeyRecord)

/-- Redis `SET k v`: replaces any existing binding of `k`. -/
def redisSet (s : Store) (k : String) (v : KeyRecord) : Store :=
  (k, v) :: s.filter (fun p => !(p.1 == k))

/-- Redis `GET k`. -/
def redisGet (s : Store) (k : String) : Option KeyRecord :=
  (s.find? (fun p => p.1 == k)).map Prod.snd

/-- Redis `DELETE k`. -/
def redisDelete (s : Store) (k : String) : Store :=
  s.filter (fun p => !(p.1 == k))

/-- The Redis key namespacing used throughout src/auth.py: every record is
stored under the literal `apikey:` followed by the API key. -/
def storeKey (api_key : String) : String := "apikey:" ++ api_key

/-- `create_api_key` (src/auth.py lines 61-83).  `token` stands for the
generated `secrets.token_urlsafe(32)`; `now1` is the clock read on line 65
(used for `expires_at`), `now2` the clock read on line 70 (stored as
`created_at`).  Returns the updated store and the new key. -/
def create_api_key (store : Store) (user_id : String) (expires_in_days : Nat)
    (token : String) (now1 now2 : Nat) : Store × String :=
  let api_key := "key_" ++ token
  let expires_at := now1 + expires_in_days * 24 * 60 * 60
  let key_data : KeyRecord := { user_id := user_id, created_at := now2, expires_at := expires_at }
  (redisSet store (storeKey api_key) key_data, api_key)

/-- `validate_api_key` (src/auth.py lines 109-125), at current time `now`.
A falsy (empty) key yields `none`; a missing record yields `none`; a record
with `now > expires_at` (strict comparison, line 121) is deleted and yields
`none`; otherwise the owner's `user_id` is returned.  The second component is
the store after the call (validation doubles as lazy cleanup). -/
def validate_api_key (store : Store) (api_key : String) (now : Nat) :
    Option String × Store :=
  if api_key = "" then (none, store)
  else
    match redisGet store (storeKey api_key) with
    | none => (none, store)
    | some key_data =>
      if key_data.expires_at < now then (none, redisDelete store (storeKey api_key))
      else (some key_data.user_id, store)

/-- `revoke_api_key` (src/auth.py lines 127-129): an unconditional Redis
delete. -/
def revoke_api_key (store : Store) (api_key : String) : Store :=
  redisDelete store (storeKey api_key)

/-- A Firestore `users` document: `email` and a possibly-missing `flags`
attribute holding raw strings (src/main.py lines 158-161 show the stored
shape). -/
structure UserDoc where
  email : Option String
  flags : Option (List String)
deriving DecidableEq, Repr

/-- The Firestore `users` collection, as an association list. -/
abbrev UserDB := List (String × UserDoc)

/-- `db.collection('users').document(user_id).get()`: `none` models
`not user_doc.exists`. -/
def dbGet (db : UserDB) (user_id : String) : Option UserDoc :=
  (db.find? (fun p => p.1 == user_id)).map Prod.snd

/-- The `UserFlag(flag)` enum constructor (src/auth.py line 107): `none`
models the `ValueError` Python raises on a string that is not one of the four
member values. -/
def UserFlag.ofString (s : String) : Option UserFlag :=
  if s = "USER" then some .USER
  else if s = "ELEVATED_USER" then some .ELEVATED_USER
  else if s = "ADMINISTRATOR" then some .ADMINISTRATOR
  else if s = "SYSTEM_OPERATOR" then some .SYSTEM_OPERATOR
  else none

/-- The comprehension `[UserFlag(flag) for flag in user_data.get('flags', [])]`
(src/auth.py line 107): evaluates left to right, raising (`.error`, carrying
the offending string) at the first unknown flag value. -/
def parseFlags : List String → Except String (List UserFlag)
  | [] => .ok []
  | s :: rest =>
    match UserFlag.ofString s with
    | none => .error s
    | some f =>
      match parseFlags rest with
      | .error e => .error e
      | .ok fs => .ok (f :: fs)

/-- `get_user_flags` (src/auth.py lines 92-107) against key store `store` and
principal store `udb` at time `now`.  A missing or falsy key, an invalid key,
a missing principal document, or a missing `flags` attribute all give `.ok []`;
an unknown flag string in stored data gives `.error`.  The second component is
the store after the embedded `validate_api_key` call. -/
def get_user_flags (store : Store) (udb : UserDB) (api_key : Option String)
    (now : Nat) : Except String (List UserFlag) × Store :=
  match api_key with
  | none => (.ok [], store)
  | some k =>
    if k = "" then (.ok [], store)
    else
      match validate_api_key store k now with
      | (none, store2) => (.ok [], store2)
      | (some user_id, store2) =>
        match dbGet udb user_id with
        | none => (.ok [], store2)
        | some user_doc => (parseFlags (user_doc.flags.getD []), store2)

/-- The flag check of the `requires_flags` decorator (src/auth.py lines
169-199), applied to the caller's resolved `user_flags`.  `.error 403` models
the `HTTPException(status_code=403)` raised before the wrapped handler runs;
`.ok ()` means the wrapped handler executes. -/
def requires_flags (required_flags : List UserFlag) (any_of : Bool)
    (user_flags : List UserFlag) : Except Nat Unit :=
  if any_of then
    if required_flags.any (fun flag => user_flags.contains flag) then .ok ()
    else .error 403
  else
    if required_flags.all (fun flag => user_flags.contains flag) then .ok ()
    else .error 403

lemma redisGet_set_self (s : Store) (k : String) (v : KeyRecord) :
    redisGet (redisSet s k v) k = some v := by
  simp [redisGet, redisSet, List.find?]

lemma redisGet_delete_self (s : Store) (k : String) :
    redisGet (redisDelete s k) k = none := by
  simp only [redisGet, redisDelete, Option.map_eq_none']
  rw [List.find?_eq_none]
  intro x hx
  simp only [List.mem_filter] at hx
  simpa using hx.2

lemma redisGet_delete_other (s : Store) (k k2 : String) (hne : k2 ≠ k) :
    redisGet (redisDelete s k) k2 = redisGet s k2 := by
  induction s with
  | nil => rfl
  | cons hd tl ih =>
    by_cases h1 : hd.1 = k
    · have : (hd.1 == k) = true := beq_iff_eq.mpr h1
      have h2 : (hd.1 == k2) = false := by
        rw [beq_eq_false_iff_ne]
        intro h; exact hne (by rw [← h, h1])
      simp [redisDelete, redisGet, List.filter, this, List.find?, h2] at ih ⊢
      simpa [redisDelete, redisGet] using ih
    · have : (hd.1 == k) = false := beq_eq_false_iff_ne.mpr h1
      by_cases h2 : hd.1 = k2
      · have h2b : (hd.1 == k2) = true := beq_iff_eq.mpr h2
        simp [redisDelete, redisGet, List.filter, this, List.find?, h2b]
      · have h2b : (hd.1 == k2) = false := beq_eq_false_iff_ne.mpr h2
        simp only [redisDelete, redisGet, List.filter, this, List.find?, h2b] at ih ⊢
        simpa [redisDelete, redisGet] using ih

lemma redisGet_delete_some (s : Store) (k k2 : String) (r : KeyRecord)
    (h : redisGet (redisDelete s k) k2 = some r) : redisGet s k2 = some r := by
  by_cases hk : k2 = k
  · rw [hk, redisGet_delete_self] at h; cases h
  · rwa [redisGet_delete_other s k k2 hk] at h

lemma key_token_ne_empty (token : String) : ("key_" ++ token : String) ≠ "" := by
  intro h
  have h2 := congrArg String.length h
  have h3 : ("key_" : String).length = 4 := rfl
  have h4 : ("" : String).length = 0 := rfl
  rw [String.length_append, h3, h4] at h2
  omega

lemma foldl_max_init_le (l : List Int) (r : Int) : r ≤ l.foldl max r := by
  induction l generalizing r with
  | nil => simp
  | cons a l ih => exact le_trans (le_max_left r a) (ih (max r a))

lemma foldl_max_mem_le (l : List Int) (r x : Int) (hx : x ∈ l) : x ≤ l.foldl max r := by
  induction l generalizing r with
  | nil => cases hx
  | cons a l ih =>
    rcases List.mem_cons.mp hx with h | h
    · subst h
      exact le_trans (le_max_right r x) (foldl_max_init_le l (max r x))
    · exact ih (max r a) h

lemma foldl_max_mem_or (l : List Int) (r : Int) :
    l.foldl max r = r ∨ l.foldl max r ∈ l := by
  induction l generalizing r with
  | nil => left; rfl
  | cons a l ih =>
    rcases ih (max r a) with h | h
    · rcases max_cases r a with ⟨h1, _⟩ | ⟨h1, _⟩
      · left; rw [List.foldl_cons, h, h1]
      · right; rw [List.foldl_cons, h, h1]; exact List.mem_cons_self a l
    · right; exact List.mem_cons_of_mem a h

lemma rateLimitLoop_unlimited : ∀ (l : List UserFlag) (r : Int),
    (∃ f ∈ l, FLAG_LIMITS f = -1) → rateLimitLoop l r = none
  | [], _, h => by rcases h with ⟨f, hf, _⟩; cases hf
  | a :: l, r, h => by
    by_cases ha : FLAG_LIMITS a = -1
    · simp [rateLimitLoop, ha]
    · rcases h with ⟨f, hf, hflag⟩
      rcases List.mem_cons.mp hf with rfl | hf2
      · exact absurd hflag ha
      · simpa [rateLimitLoop, ha] using
          rateLimitLoop_unlimited l (max r (FLAG_LIMITS a)) ⟨f, hf2, hflag⟩

lemma rateLimitLoop_numeric : ∀ (l : List UserFlag) (r : Int),
    (∀ f ∈ l, FLAG_LIMITS f ≠ -1) →
    rateLimitLoop l r = some ⟨(l.map FLAG_LIMITS).foldl max r, 1⟩
  | [], _, _ => rfl
  | a :: l, r, h => by
    have ha := h a (List.mem_cons_self a l)
    simp only [rateLimitLoop, ha, if_false, List.map_cons, List.foldl_cons]
    exact rateLimitLoop_numeric l (max r (FLAG_LIMITS a))
      (fun f hf => h f (List.mem_cons_of_mem a hf))

lemma flag_limit_lower (f : UserFlag) (h : FLAG_LIMITS f ≠ -1) :
    (100 : Int) ≤ FLAG_LIMITS f := by
  cases f <;> first | decide | exact absurd rfl h

/-- C1: the rate-limit resolver short-circuits to the unlimited policy when any
held flag maps to unlimited, returns exactly the unauthenticated limit on the
empty flag set, and otherwise returns the maximum numeric quota among the held
flags; on {USER, ELEVATED_USER} it yields 2500 (max, not sum); the unlimited
flags are exactly ADMINISTRATOR and SYSTEM_OPERATOR; and dynamic_rate_limit
agrees with the resolution used per request. -/
theorem C1_rate_limit_resolution (user_flags : List UserFlag) :
    ((∃ f ∈ user_flags, FLAG_LIMITS f = -1) → resolve_flags user_flags = none) ∧
    (user_flags = [] → resolve_flags user_flags = some ⟨UNAUTHENTICATED_LIMIT, 1⟩) ∧
    (user_flags ≠ [] → (∀ f ∈ user_flags, FLAG_LIMITS f ≠ -1) →
      ∃ m, resolve_flags user_flags = some ⟨m, 1⟩ ∧
        m ∈ user_flags.map FLAG_LIMITS ∧ ∀ f ∈ user_flags, FLAG_LIMITS f ≤ m) ∧
    (resolve_flags [UserFlag.USER, UserFlag.ELEVATED_USER] = some ⟨2500, 1⟩) ∧
    (∀ f, FLAG_LIMITS f = -1 ↔ (f = UserFlag.ADMINISTRATOR ∨ f = UserFlag.SYSTEM_OPERATOR)) ∧
    (dynamic_rate_limit user_flags = resolve_flags user_flags) := by
  refine ⟨?_, ?_, ?_, by decide, by intro f; cases f <;> decide, ?_⟩
  · exact fun h => rateLimitLoop_unlimited user_flags UNAUTHENTICATED_LIMIT h
  · intro h; subst h; rfl
  · intro hne hnum
    rw [resolve_flags, rateLimitLoop_numeric user_flags UNAUTHENTICATED_LIMIT hnum]
    refine ⟨(user_flags.map FLAG_LIMITS).foldl max UNAUTHENTICATED_LIMIT, rfl, ?_, ?_⟩
    · rcases foldl_max_mem_or (user_flags.map FLAG_LIMITS) UNAUTHENTICATED_LIMIT with h | h
      · exfalso
        rcases List.exists_mem_of_ne_nil user_flags hne with ⟨f0, hf0⟩
        have hmem : FLAG_LIMITS f0 ∈ user_flags.map FLAG_LIMITS :=
          List.mem_map_of_mem FLAG_LIMITS hf0
        have hle := foldl_max_mem_le _ UNAUTHENTICATED_LIMIT _ hmem
        rw [h] at hle
        have := flag_limit_lower f0 (hnum f0 hf0)
        rw [UNAUTHENTICATED_LIMIT] at hle
        omega
      · exact h
    · intro f hf
      exact foldl_max_mem_le _ UNAUTHENTICATED_LIMIT _ (List.mem_map_of_mem FLAG_LIMITS hf)
  · cases user_flags with
    | nil => rfl
    | cons a l => rfl

theorem C1_rate_limit_resolution_witness :
    (resolve_flags [UserFlag.ADMINISTRATOR] = none) ∧
    (∃ m, resolve_flags [UserFlag.USER] = some ⟨m, 1⟩ ∧
      m ∈ [UserFlag.USER].map FLAG_LIMITS ∧ ∀ f ∈ [UserFlag.USER], FLAG_LIMITS f ≤ m) :=
  ⟨(C1_rate_limit_resolution [UserFlag.ADMINISTRATOR]).1
      ⟨UserFlag.ADMINISTRATOR, by decide, by decide⟩,
   (C1_rate_limit_resolution [UserFlag.USER]).2.2.1 (by decide) (by decide)⟩

/-- C2: validating a key at the very time it was issued (all clock reads during
issuance and validation agree) returns the issuing owner, for every prior
store state, owner id, ttl and generated token. -/
theorem C2_validate_after_issue (store : Store) (owner_id : String)
    (ttl_days : Nat) (token : String) (now : Nat) :
    (validate_api_key (create_api_key store owner_id ttl_days token now now).1
      (create_api_key store owner_id ttl_days token now now).2 now).1 = some owner_id := by
  have hk := key_token_ne_empty token
  simp only [create_api_key, validate_api_key, if_neg hk, redisGet_set_self]
  have : ¬ (now + ttl_days * 24 * 60 * 60 < now) := by omega
  simp [this]

/-- C3 counterexample: a key issued at time 0 with ttl 1 day is still accepted
by validate_api_key at time 86400 = issued_at + 1*86400, because the expiry
comparison on src/auth.py line 121 is strict; the claim says any call at time
greater than or equal to the boundary returns absent. -/
theorem C3_boundary_counterexample :
    (86400 : Nat) ≥ 0 + 1 * 86400 ∧
    (validate_api_key (create_api_key [] "u1" 1 "tok" 0 0).1
      (create_api_key [] "u1" 1 "tok" 0 0).2 86400).1 = some "u1" := by
  constructor
  · decide
  · decide

/-- C3 (amended): for a key issued with ttl t at time now (both clock reads
agreeing), any validate_api_key call at a time strictly greater than
now + t*86400 returns absent and deletes the record, so a subsequent store get
returns absent. -/
theorem C3_validate_after_expiry (store : Store) (owner_id : String)
    (ttl_days : Nat) (token : String) (now t : Nat)
    (ht : now + ttl_days * 86400 < t) :
    (validate_api_key (create_api_key store owner_id ttl_days token now now).1
      (create_api_key store owner_id ttl_days token now now).2 t).1 = none ∧
    redisGet (validate_api_key (create_api_key store owner_id ttl_days token now now).1
      (create_api_key store owner_id ttl_days token now now).2 t).2
      (storeKey (create_api_key store owner_id ttl_days token now now).2) = none := by
  have hk := key_token_ne_empty token
  have hlt : now + ttl_days * 24 * 60 * 60 < t := by omega
  simp only [create_api_key, validate_api_key, if_neg hk, redisGet_set_self, if_pos hlt]
  refine ⟨trivial, ?_⟩
  exact redisGet_delete_self _ _

theorem C3_validate_after_expiry_witness :
    0 + 1 * 86400 < 86401 ∧
    ((validate_api_key (create_api_key [] "u1" 1 "tok" 0 0).1
        (create_api_key [] "u1" 1 "tok" 0 0).2 86401).1 = none ∧
      redisGet (validate_api_key (create_api_key [] "u1" 1 "tok" 0 0).1
        (create_api_key [] "u1" 1 "tok" 0 0).2 86401).2
        (storeKey (create_api_key [] "u1" 1 "tok" 0 0).2) = none) :=
  ⟨by decide, C3_validate_after_expiry [] "u1" 1 "tok" 0 86401 (by decide)⟩

/-- C4: when the flag-resolution step inside get_rate_limit raises (whatever
the error), the per-request resolver returns exactly the most restrictive
policy, UNAUTHENTICATED_LIMIT per 1 minute, and in particular never the
unlimited policy; being a total function, it raises nothing itself. -/
theorem C4_fail_closed (e : String) :
    get_rate_limit (Except.error e) = some ⟨UNAUTHENTICATED_LIMIT, 1⟩ ∧
    get_rate_limit (Except.error e) ≠ none := by
  constructor
  · rfl
  · intro h; cases h

/-- C5: the requires_flags guard rejects with 403 before the handler runs
exactly when the requirement is not met by the caller's resolved flags (ANY
mode: no required flag held; ALL mode: some required flag missing), and admits
the handler exactly when it is met. -/
theorem C5_requires_flags_gate (required_flags user_flags : List UserFlag)
    (any_of : Bool) :
    (requires_flags required_flags any_of user_flags = Except.error 403 ↔
      (if any_of then ∀ f ∈ required_flags, f ∉ user_flags
       else ∃ f ∈ required_flags, f ∉ user_flags)) ∧
    (requires_flags required_flags any_of user_flags = Except.ok () ↔
      (if any_of then ∃ f ∈ required_flags, f ∈ user_flags
       else ∀ f ∈ required_flags, f ∈ user_flags)) := by
  cases any_of <;>
    constructor <;>
      simp [requires_flags, List.any_eq_true, List.all_eq_true]

/-- C10: with an empty required-flag list the two match modes are opposite:
any_of mode rejects every caller with 403 (an any over the empty list is never
satisfied), while all mode admits every caller to the wrapped handler. -/
theorem C10_empty_required_flags (user_flags : List UserFlag) :
    requires_flags [] true user_flags = Except.error 403 ∧
    requires_flags [] false user_flags = Except.ok () := by
  constructor <;> rfl

/-- C6: if a key validates to some owner but that owner has no document in the
principal store, or has a document without a flags attribute, flag resolution
returns the empty flag list without raising. -/
theorem C6_missing_principal (store : Store) (udb : UserDB) (k : String)
    (now : Nat) (uid : String)
    (hval : (validate_api_key store k now).1 = some uid)
    (h : dbGet udb uid = none ∨ ∃ doc, dbGet udb uid = some doc ∧ doc.flags = none) :
    (get_user_flags store udb (some k) now).1 = Except.ok [] := by
  by_cases hk : k = ""
  · subst hk
    simp [validate_api_key] at hval
  · rw [get_user_flags]
    rcases hv : validate_api_key store k now with ⟨r, store2⟩
    rw [hv] at hval
    simp only at hval
    subst hval
    simp only [if_neg hk]
    rcases h with hnone | ⟨doc, hdoc, hflags⟩
    · rw [hnone]
    · rw [hdoc]
      simp only [hflags, Option.getD_none]
      rfl

theorem C6_missing_principal_witness :
    (validate_api_key [(storeKey "k1", ⟨"u1", 0, 100⟩)] "k1" 0).1 = some "u1" ∧
    (get_user_flags [(storeKey "k1", ⟨"u1", 0, 100⟩)] [] (some "k1") 0).1 = Except.ok [] :=
  ⟨by decide,
   C6_missing_principal [(storeKey "k1", ⟨"u1", 0, 100⟩)] [] "k1" 0 "u1"
     (by decide) (Or.inl (by decide))⟩

lemma parseFlags_error_of_bad : ∀ (fs : List String),
    (∃ s ∈ fs, UserFlag.ofString s = none) →
    Except.isOk (parseFlags fs) = false
  | [], h => by rcases h with ⟨s, hs, _⟩; cases hs
  | s :: rest, h => by
    rcases hof : UserFlag.ofString s with _ | f
    · simp [parseFlags, hof, Except.isOk, Except.toBool]
    · rcases h with ⟨s2, hs2, hbad⟩
      rcases List.mem_cons.mp hs2 with rfl | hmem
      · rw [hof] at hbad; cases hbad
      · have := parseFlags_error_of_bad rest ⟨s2, hmem, hbad⟩
        rcases hp : parseFlags rest with e | fs2
        · simp [parseFlags, hof, hp, Except.isOk, Except.toBool]
        · rw [hp] at this; cases this

/-- C7: if a key validates to an owner whose stored document carries a flags
list containing a string that is not one of the four UserFlag values, flag
resolution raises (returns an error) rather than dropping the flag or
defaulting; the read is rejected. -/
theorem C7_unknown_flag_rejected (store : Store) (udb : UserDB) (k : String)
    (now : Nat) (uid : String) (doc : UserDoc) (fs : List String)
    (hval : (validate_api_key store k now).1 = some uid)
    (hdoc : dbGet udb uid = some doc) (hflags : doc.flags = some fs)
    (hbad : ∃ s ∈ fs, UserFlag.ofString s = none) :
    Except.isOk (get_user_flags store udb (some k) now).1 = false := by
  by_cases hk : k = ""
  · subst hk
    simp [validate_api_key] at hval
  · rw [get_user_flags]
    rcases hv : validate_api_key store k now with ⟨r, store2⟩
    rw [hv] at hval
    simp only at hval
    subst hval
    simp only [if_neg hk]
    rw [hdoc]
    simp only [hflags, Option.getD_some]
    exact parseFlags_error_of_bad fs hbad

theorem C7_unknown_flag_rejected_witness :
    (validate_api_key [(storeKey "k1", ⟨"u1", 0, 100⟩)] "k1" 0).1 = some "u1" ∧
    Except.isOk (get_user_flags [(storeKey "k1", ⟨"u1", 0, 100⟩)]
      [("u1", ⟨some "a@b", some ["USER", "WEIRD"]⟩)] (some "k1") 0).1 = false :=
  ⟨by decide,
   C7_unknown_flag_rejected [(storeKey "k1", ⟨"u1", 0, 100⟩)]
     [("u1", ⟨some "a@b", some ["USER", "WEIRD"]⟩)] "k1" 0 "u1"
     ⟨some "a@b", some ["USER", "WEIRD"]⟩ ["USER", "WEIRD"]
     (by decide) (by decide) rfl ⟨"WEIRD", by decide, by decide⟩⟩

/-- C8: revoke followed by validate returns absent at any time; revoking twice
leaves the store exactly as revoking once; and revoking a key whose record is
absent from the store is a no-op rather than an error. -/
theorem C8_revoke_idempotent (store : Store) (api_key : String) (now : Nat) :
    (validate_api_key (revoke_api_key store api_key) api_key now).1 = none ∧
    revoke_api_key (revoke_api_key store api_key) api_key = revoke_api_key store api_key ∧
    (redisGet store (storeKey api_key) = none → revoke_api_key store api_key = store) := by
  refine ⟨?_, ?_, ?_⟩
  · by_cases hk : api_key = ""
    · simp [validate_api_key, hk]
    · simp only [validate_api_key, if_neg hk, revoke_api_key, redisGet_delete_self]
  · simp only [revoke_api_key, redisDelete, List.filter_filter]
    congr 1
    funext p
    cases h : (p.1 == storeKey api_key) <;> simp [h]
  · intro h
    simp only [revoke_api_key, redisDelete]
    rw [List.filter_eq_self]
    intro p hp
    simp only [redisGet, Option.map_eq_none'] at h
    rw [List.find?_eq_none] at h
    simpa using h p hp

theorem C8_revoke_idempotent_witness :
    ((validate_api_key (revoke_api_key [] "a") "a" 0).1 = none ∧
      revoke_api_key (revoke_api_key [] "a") "a" = revoke_api_key [] "a" ∧
      revoke_api_key [] "a" = []) :=
  ⟨(C8_revoke_idempotent [] "a" 0).1, (C8_revoke_idempotent [] "a" 0).2.1,
   (C8_revoke_idempotent [] "a" 0).2.2 (by decide)⟩

/-- C9 counterexample: create_api_key reads the clock once for expires_at
(src/auth.py line 65) and again for created_at (line 70); when the clock ticks
between the two reads (here 0 then 1, ttl 1 day), the stored record has
expires_at = 86400 while created_at + 1*86400 = 86401, so expires_at differs
from the stored creation timestamp plus the ttl. -/
theorem C9_two_clock_reads_counterexample :
    redisGet (create_api_key [] "u1" 1 "tok" 0 1).1
      (storeKey (create_api_key [] "u1" 1 "tok" 0 1).2) =
      some ⟨"u1", 1, 86400⟩ ∧
    (86400 : Nat) ≠ 1 + 1 * 86400 := by
  constructor
  · decide
  · decide

lemma validate_store_cases (store : Store) (k : String) (now : Nat) :
    (validate_api_key store k now).2 = store ∨
    (validate_api_key store k now).2 = redisDelete store (storeKey k) := by
  rw [validate_api_key]
  by_cases hk : k = ""
  · left; rw [if_pos hk]
  · rw [if_neg hk]
    rcases redisGet store (storeKey k) with _ | kd
    · left; rfl
    · by_cases hx : kd.expires_at < now
      · right; simp [hx]
      · left; simp [hx]

lemma redisGet_set_other (s : Store) (k k2 : String) (v : KeyRecord) (hne : k2 ≠ k) :
    redisGet (redisSet s k v) k2 = redisGet s k2 := by
  have hb : (k == k2) = false := beq_eq_false_iff_ne.mpr (fun h => hne h.symm)
  have step : redisGet (redisSet s k v) k2 = redisGet (redisDelete s k) k2 := by
    simp [redisSet, redisGet, redisDelete, List.find?, hb]
  rw [step, redisGet_delete_other s k k2 hne]

/-- C9 (amended): the record stored by create_api_key has
expires_at = now1 + ttl*86400 where now1 is the clock read used on
src/auth.py line 65; whenever the two clock reads of creation agree, the
stored record satisfies expires_at = created_at + ttl*86400 exactly; and no
later operation ever modifies a stored record - validate_api_key and
revoke_api_key only ever delete records, and create_api_key leaves every other
key untouched - so expires_at is immutable after creation. -/
theorem C9_expiry_derivation :
    (∀ (store : Store) (uid : String) (ttl : Nat) (token : String) (now1 now2 : Nat),
      redisGet (create_api_key store uid ttl token now1 now2).1
        (storeKey (create_api_key store uid ttl token now1 now2).2) =
        some ⟨uid, now2, now1 + ttl * 86400⟩) ∧
    (∀ (store : Store) (uid : String) (ttl : Nat) (token : String) (now1 now2 : Nat),
      now1 = now2 →
      ∀ r, redisGet (create_api_key store uid ttl token now1 now2).1
        (storeKey (create_api_key store uid ttl token now1 now2).2) = some r →
        r.expires_at = r.created_at + ttl * 86400) ∧
    (∀ (store : Store) (k k2 : String) (now : Nat) (r : KeyRecord),
      redisGet (validate_api_key store k now).2 k2 = some r →
      redisGet store k2 = some r) ∧
    (∀ (store : Store) (k k2 : String) (r : KeyRecord),
      redisGet (revoke_api_key store k) k2 = some r →
      redisGet store k2 = some r) ∧
    (∀ (store : Store) (uid : String) (ttl : Nat) (token : String) (now1 now2 : Nat) (k2 : String),
      k2 ≠ storeKey (create_api_key store uid ttl token now1 now2).2 →
      redisGet (create_api_key store uid ttl token now1 now2).1 k2 = redisGet store k2) := by
  have h1 : ∀ (store : Store) (uid : String) (ttl : Nat) (token : String) (now1 now2 : Nat),
      redisGet (create_api_key store uid ttl token now1 now2).1
        (storeKey (create_api_key store uid ttl token now1 now2).2) =
        some ⟨uid, now2, now1 + ttl * 86400⟩ := by
    intro store uid ttl token now1 now2
    simp only [create_api_key, redisGet_set_self, Option.some.injEq, KeyRecord.mk.injEq]
    refine ⟨trivial, trivial, ?_⟩
    omega
  refine ⟨h1, ?_, ?_, ?_, ?_⟩
  · intro store uid ttl token now1 now2 heq r hr
    rw [h1] at hr
    cases hr
    subst heq
    simp
  · intro store k k2 now r hr
    rcases validate_store_cases store k now with h | h <;> rw [h] at hr
    · exact hr
    · exact redisGet_delete_some store (storeKey k) k2 r hr
  · intro store k k2 r hr
    simp only [revoke_api_key] at hr
    exact redisGet_delete_some store (storeKey k) k2 r hr
  · intro store uid ttl token now1 now2 k2 hne
    simp only [create_api_key] at hne ⊢
    exact redisGet_set_other store _ k2 _ hne

theorem C9_expiry_derivation_witness :
    ((⟨"u1", 5, 86405⟩ : KeyRecord).expires_at = (⟨"u1", 5, 86405⟩ : KeyRecord).created_at + 1 * 86400) ∧
    (redisGet [(storeKey "a", ⟨"u", 0, 10⟩)] (storeKey "a") = some ⟨"u", 0, 10⟩) ∧
    (redisGet (create_api_key [] "u1" 1 "t" 0 0).1 "zzz" = redisGet [] "zzz") :=
  ⟨C9_expiry_derivation.2.1 [] "u1" 1 "t" 5 5 rfl ⟨"u1", 5, 86405⟩ (by decide),
   C9_expiry_derivation.2.2.1 [(storeKey "a", ⟨"u", 0, 10⟩)] "b" (storeKey "a") 0
     ⟨"u", 0, 10⟩ (by decide),
   C9_expiry_derivation.2.2.2.2 [] "u1" 1 "t" 0 0 "zzz" (by decide)⟩

theorem C2_validate_after_issue_witness :
    (validate_api_key (create_api_key [] "u1" 30 "tok" 7 7).1
      (create_api_key [] "u1" 30 "tok" 7 7).2 7).1 = some "u1" :=
  C2_validate_after_issue [] "u1" 30 "tok" 7

theorem C4_fail_closed_witness :
    get_rate_limit (Except.error "store unreachable") = some ⟨UNAUTHENTICATED_LIMIT, 1⟩ ∧
    get_rate_limit (Except.error "store unreachable") ≠ none :=
  C4_fail_closed "store unreachable"

theorem C5_requires_flags_gate_witness :
    (requires_flags [UserFlag.ADMINISTRATOR] false [UserFlag.USER] = Except.error 403 ↔
      (if false then ∀ f ∈ [UserFlag.ADMINISTRATOR], f ∉ [UserFlag.USER]
       else ∃ f ∈ [UserFlag.ADMINISTRATOR], f ∉ [UserFlag.USER])) ∧
    (requires_flags [UserFlag.ADMINISTRATOR] false [UserFlag.USER] = Except.ok () ↔
      (if false then ∃ f ∈ [UserFlag.ADMINISTRATOR], f ∈ [UserFlag.USER]
       else ∀ f ∈ [UserFlag.ADMINISTRATOR], f ∈ [UserFlag.USER])) :=
  C5_requires_flags_gate [UserFlag.ADMINISTRATOR] [UserFlag.USER] false

theorem C10_empty_required_flags_witness :
    requires_flags [] true [UserFlag.ADMINISTRATOR] = Except.error 403 ∧
    requires_flags [] false [UserFlag.ADMINISTRATOR] = Except.ok () :=
  C10_empty_required_flags [UserFlag.ADMINISTRATOR]
